import Mathlib

/-!
Verification of the solar-dashboard data pipeline (`solar_dashboard/app.py`).

The pipeline is shallowly embedded: pandas DataFrames become lists of typed
row records, float arithmetic is modelled exactly over `ℚ`, Python `round`
becomes half-even rounding over `ℚ`, Python `datetime.date` becomes a
`Date` structure with the proleptic-Gregorian ordinal used by `timedelta`,
and NumPy division by zero (which yields NaN rather than raising) is
modelled by `Option ℚ` with `none` standing for NaN.
-/

/-- Python `round` rounds half to even.  This is the integer-valued
half-even rounding of a rational. -/
def roundHalfEven (q : ℚ) : ℤ :=
  if q - ⌊q⌋ < 1/2 then ⌊q⌋
  else if 1/2 < q - ⌊q⌋ then ⌊q⌋ + 1
  else if ⌊q⌋ % 2 = 0 then ⌊q⌋ else ⌊q⌋ + 1

/-- Python `round(x, n)`: half-even rounding to `n` decimal places,
modelled exactly over `ℚ`. -/
def pyRound (q : ℚ) (n : ℕ) : ℚ :=
  (roundHalfEven (q * 10 ^ n) : ℚ) / 10 ^ n

theorem roundHalfEven_ge_floor (q : ℚ) : ⌊q⌋ ≤ roundHalfEven q := by
  unfold roundHalfEven
  split_ifs <;> omega

theorem roundHalfEven_le_floor_succ (q : ℚ) : roundHalfEven q ≤ ⌊q⌋ + 1 := by
  unfold roundHalfEven
  split_ifs <;> omega

theorem roundHalfEven_mono {x y : ℚ} (h : x ≤ y) :
    roundHalfEven x ≤ roundHalfEven y := by
  rcases lt_or_eq_of_le (Int.floor_le_floor h) with hf | hf
  · calc roundHalfEven x ≤ ⌊x⌋ + 1 := roundHalfEven_le_floor_succ x
      _ ≤ ⌊y⌋ := by omega
      _ ≤ roundHalfEven y := roundHalfEven_ge_floor y
  · unfold roundHalfEven
    rw [← hf]
    have hxy : x - ⌊x⌋ ≤ y - ⌊x⌋ := by linarith
    split_ifs <;> first | rfl | omega | linarith

theorem pyRound_mono {x y : ℚ} (n : ℕ) (h : x ≤ y) :
    pyRound x n ≤ pyRound y n := by
  unfold pyRound
  have hp : (0 : ℚ) < 10 ^ n := by positivity
  have hm : x * 10 ^ n ≤ y * 10 ^ n := by
    exact mul_le_mul_of_nonneg_right h (le_of_lt hp)
  have := roundHalfEven_mono hm
  have hc : ((roundHalfEven (x * 10 ^ n) : ℤ) : ℚ) ≤ ((roundHalfEven (y * 10 ^ n) : ℤ) : ℚ) := by
    exact_mod_cast this
  exact div_le_div_of_nonneg_right hc hp.le

/-! ## Dates

`datetime.date` in Python: year in `[1, 9999]`, validated month and day,
compared lexicographically on `(year, month, day)`; `timedelta` differences
go through `date.toordinal()` (days since 0001-01-01, that date being
ordinal 1). -/

/-- A Python `datetime.date` value (possibly unvalidated). -/
structure Date where
  y : ℕ
  m : ℕ
  d : ℕ
deriving DecidableEq, Repr

/-- Gregorian leap-year test, as in Python's `calendar.isleap`. -/
def isLeap (y : ℕ) : Bool :=
  y % 4 == 0 && (y % 100 != 0 || y % 400 == 0)

/-- Length of month `m` in year `y` (Python `_days_in_month`). -/
def daysInMonth (y m : ℕ) : ℕ :=
  if m = 2 then (if isLeap y then 29 else 28)
  else if m = 4 ∨ m = 6 ∨ m = 9 ∨ m = 11 then 30
  else 31

/-- Days in year `y` before the start of month `m`
(Python `_days_before_month`). -/
def daysBefore (leap : Bool) (m : ℕ) : ℕ :=
  (match m with
   | 1 => 0 | 2 => 31 | 3 => 59 | 4 => 90 | 5 => 120 | 6 => 151
   | 7 => 181 | 8 => 212 | 9 => 243 | 10 => 273 | 11 => 304 | 12 => 334
   | _ => 0)
  + (if leap && 2 < m then 1 else 0)

/-- Days contributed by all years strictly before year `y`. -/
def yearBase (y : ℕ) : ℕ :=
  365 * (y - 1) + ((y - 1) / 4 - (y - 1) / 100 + (y - 1) / 400)

/-- Python `date.toordinal()`: day count with 0001-01-01 as day 1. -/
def toOrdinal (a : Date) : ℕ :=
  yearBase a.y + daysBefore (isLeap a.y) a.m + a.d

/-- Validity check performed by the `datetime.date` constructor. -/
def Date.valid (a : Date) : Prop :=
  1 ≤ a.y ∧ a.y ≤ 9999 ∧ 1 ≤ a.m ∧ a.m ≤ 12 ∧ 1 ≤ a.d ∧ a.d ≤ daysInMonth a.y a.m

instance (a : Date) : Decidable a.valid :=
  inferInstanceAs (Decidable
    (1 ≤ a.y ∧ a.y ≤ 9999 ∧ 1 ≤ a.m ∧ a.m ≤ 12 ∧ 1 ≤ a.d ∧ a.d ≤ daysInMonth a.y a.m))

/-- `datetime.date(y, m, d)`: `some` on valid input, `none` when the
constructor would raise `ValueError`. -/
def mkDate (y m d : ℕ) : Option Date :=
  if (Date.mk y m d).valid then some (Date.mk y m d) else none

/-- Python date comparison `<`: lexicographic on `(year, month, day)`. -/
def Date.lexLT (a b : Date) : Prop :=
  a.y < b.y ∨ (a.y = b.y ∧ (a.m < b.m ∨ (a.m = b.m ∧ a.d < b.d)))

/-- Python date comparison `<=`. -/
def Date.lexLE (a b : Date) : Prop :=
  Date.lexLT a b ∨ a = b

instance (a b : Date) : Decidable (Date.lexLT a b) :=
  inferInstanceAs (Decidable
    (a.y < b.y ∨ (a.y = b.y ∧ (a.m < b.m ∨ (a.m = b.m ∧ a.d < b.d)))))

instance (a b : Date) : Decidable (Date.lexLE a b) :=
  inferInstanceAs (Decidable (Date.lexLT a b ∨ a = b))

theorem Date.lexLE_refl (a : Date) : Date.lexLE a a := Or.inr rfl

theorem Date.lexLE_trans {a b c : Date}
    (h1 : Date.lexLE a b) (h2 : Date.lexLE b c) : Date.lexLE a c := by
  rcases a with ⟨ay, am, ad⟩; rcases b with ⟨ey, em, ed⟩; rcases c with ⟨cy, cm, cd⟩
  unfold Date.lexLE Date.lexLT at h1 h2 ⊢
  simp only [Date.mk.injEq] at h1 h2 ⊢
  omega

theorem Date.lexLE_total (a b : Date) : Date.lexLE a b ∨ Date.lexLE b a := by
  rcases a with ⟨ay, am, ad⟩; rcases b with ⟨ey, em, ed⟩
  unfold Date.lexLE Date.lexLT
  simp only [Date.mk.injEq]
  omega

theorem month_day_bound (y m d : ℕ) (h1 : 1 ≤ m) (h2 : m ≤ 12)
    (h3 : d ≤ daysInMonth y m) :
    daysBefore (isLeap y) m + d ≤ if isLeap y then 366 else 365 := by
  interval_cases m <;>
    cases hL : isLeap y <;>
    simp [daysInMonth, daysBefore, hL] at h3 ⊢ <;>
    omega

theorem toOrdinal_lower (a : Date) (ha : a.valid) :
    yearBase a.y + 1 ≤ toOrdinal a := by
  obtain ⟨_, _, _, _, hd, _⟩ := ha
  unfold toOrdinal
  omega

theorem toOrdinal_upper (a : Date) (ha : a.valid) :
    toOrdinal a ≤ yearBase a.y + (if isLeap a.y then 366 else 365) := by
  obtain ⟨_, _, hm1, hm2, _, hd2⟩ := ha
  have := month_day_bound a.y a.m a.d hm1 hm2 hd2
  unfold toOrdinal
  split_ifs at this ⊢ <;> omega

theorem yearBase_mono {y1 y2 : ℕ} (h : y1 ≤ y2) : yearBase y1 ≤ yearBase y2 := by
  unfold yearBase
  omega

/-- If a valid date is at least 365 days after another valid date, its year
is at least 2 (so the Python `date(year - 1, …)` year bound holds). -/
theorem year_ge_two_of_span (s e : Date) (hs : s.valid) (he : e.valid)
    (hspan : toOrdinal s + 365 ≤ toOrdinal e) : 2 ≤ e.y := by
  by_contra h
  have hey : e.y = 1 := by
    obtain ⟨h1, _⟩ := he
    omega
  have hL : isLeap 1 = false := by decide
  have hup := toOrdinal_upper e he
  have hlo := toOrdinal_lower s hs
  rw [hey] at hup
  rw [hL] at hup
  have : yearBase 1 = 0 := by decide
  have hsy : 1 ≤ s.y := hs.1
  have := yearBase_mono hsy
  simp_all
  omega

/-- If a valid date is at least 365 days after another valid date, the
earlier year is at most 9998 (so `date(year + 1, …)` stays in range). -/
theorem year_le_9998_of_span (s e : Date) (hs : s.valid) (he : e.valid)
    (hspan : toOrdinal s + 365 ≤ toOrdinal e) : s.y ≤ 9998 := by
  by_contra h
  have hsy : s.y = 9999 := by
    obtain ⟨_, h2, _⟩ := hs
    omega
  have hlo := toOrdinal_lower s hs
  have hup := toOrdinal_upper e he
  rw [hsy] at hlo
  have hL9999 : isLeap 9999 = false := by decide
  rcases Nat.lt_or_ge e.y 9999 with hey | hey
  · have hb : yearBase e.y ≤ yearBase 9998 := yearBase_mono (by omega)
    have hbase : yearBase 9998 + 365 = yearBase 9999 := by decide
    split_ifs at hup <;> omega
  · have hey9 : e.y = 9999 := by
      obtain ⟨_, h2, _⟩ := he
      omega
    rw [hey9, hL9999] at hup
    simp at hup
    omega

/-- Changing the year of a valid date keeps it valid, except for Feb 29. -/
theorem shift_year_valid (a : Date) (ha : a.valid)
    (h29 : ¬(a.m = 2 ∧ a.d = 29)) (y2 : ℕ) (hy1 : 1 ≤ y2) (hy2 : y2 ≤ 9999) :
    (Date.mk y2 a.m a.d).valid := by
  obtain ⟨_, _, hm1, hm2, hd1, hd2⟩ := ha
  refine ⟨hy1, hy2, hm1, hm2, hd1, ?_⟩
  by_cases hm : a.m = 2
  · simp only [daysInMonth, hm, if_pos] at hd2 ⊢
    have : a.d ≤ 28 := by
      split_ifs at hd2 <;> omega
    split_ifs <;> omega
  · simp only [daysInMonth, if_neg hm] at hd2 ⊢
    exact hd2

/-! ## Folded minima and maxima over date lists (pandas `Series.min`/`.max`). -/

/-- Fold computing the minimum date (w.r.t. Python date order). -/
def listMinDate (a : Date) (l : List Date) : Date :=
  l.foldl (fun x z => if Date.lexLE x z then x else z) a

/-- Fold computing the maximum date (w.r.t. Python date order). -/
def listMaxDate (a : Date) (l : List Date) : Date :=
  l.foldl (fun x z => if Date.lexLE z x then x else z) a

theorem listMinDate_mem (a : Date) (l : List Date) :
    listMinDate a l = a ∨ listMinDate a l ∈ l := by
  induction l generalizing a with
  | nil => exact Or.inl rfl
  | cons b t ih =>
    unfold listMinDate at ih ⊢
    simp only [List.foldl_cons]
    by_cases hab : Date.lexLE a b
    · rw [if_pos hab]
      rcases ih a with h | h
      · exact Or.inl h
      · exact Or.inr (List.mem_cons_of_mem b h)
    · rw [if_neg hab]
      rcases ih b with h | h
      · exact Or.inr (by rw [h]; exact List.mem_cons_self b t)
      · exact Or.inr (List.mem_cons_of_mem b h)

theorem listMinDate_le (a : Date) (l : List Date) :
    Date.lexLE (listMinDate a l) a ∧ ∀ x ∈ l, Date.lexLE (listMinDate a l) x := by
  induction l generalizing a with
  | nil => exact ⟨Date.lexLE_refl a, by simp⟩
  | cons b t ih =>
    unfold listMinDate at ih ⊢
    simp only [List.foldl_cons]
    by_cases hab : Date.lexLE a b
    · rw [if_pos hab]
      refine ⟨(ih a).1, ?_⟩
      intro x hx
      rcases List.mem_cons.1 hx with rfl | hx
      · exact Date.lexLE_trans (ih a).1 hab
      · exact (ih a).2 x hx
    · rw [if_neg hab]
      have hba : Date.lexLE b a := by
        rcases Date.lexLE_total a b with h | h
        · exact absurd h hab
        · exact h
      refine ⟨Date.lexLE_trans (ih b).1 hba, ?_⟩
      intro x hx
      rcases List.mem_cons.1 hx with heq | hx
      · rw [heq]
        exact (ih b).1
      · exact (ih b).2 x hx

theorem listMaxDate_mem (a : Date) (l : List Date) :
    listMaxDate a l = a ∨ listMaxDate a l ∈ l := by
  induction l generalizing a with
  | nil => exact Or.inl rfl
  | cons b t ih =>
    unfold listMaxDate at ih ⊢
    simp only [List.foldl_cons]
    by_cases hab : Date.lexLE b a
    · rw [if_pos hab]
      rcases ih a with h | h
      · exact Or.inl h
      · exact Or.inr (List.mem_cons_of_mem b h)
    · rw [if_neg hab]
      rcases ih b with h | h
      · exact Or.inr (by rw [h]; exact List.mem_cons_self b t)
      · exact Or.inr (List.mem_cons_of_mem b h)

theorem listMaxDate_ge (a : Date) (l : List Date) :
    Date.lexLE a (listMaxDate a l) ∧ ∀ x ∈ l, Date.lexLE x (listMaxDate a l) := by
  induction l generalizing a with
  | nil => exact ⟨Date.lexLE_refl a, by simp⟩
  | cons b t ih =>
    unfold listMaxDate at ih ⊢
    simp only [List.foldl_cons]
    by_cases hab : Date.lexLE b a
    · rw [if_pos hab]
      refine ⟨(ih a).1, ?_⟩
      intro x hx
      rcases List.mem_cons.1 hx with rfl | hx
      · exact Date.lexLE_trans hab (ih a).1
      · exact (ih a).2 x hx
    · rw [if_neg hab]
      have hba : Date.lexLE a b := by
        rcases Date.lexLE_total b a with h | h
        · exact absurd h hab
        · exact h
      refine ⟨Date.lexLE_trans hba (ih b).1, ?_⟩
      intro x hx
      rcases List.mem_cons.1 hx with heq | hx
      · rw [heq]
        exact (ih b).1
      · exact (ih b).2 x hx

/-! ## Meter rows and the ingestion pipeline -/

/-- One raw CSV row of the meter export: `ReadDate`, `ReadTime` (minutes
since midnight), `Register`, `SolarFlag`, `ReadConsumption` (kWh). -/
structure RawRow where
  date : Date
  time : ℕ
  register : ℕ
  solarFlag : Bool
  quantity : ℚ
deriving DecidableEq, Repr

/-- The combined `datetime` column: the pair of calendar date and
time-of-day identifies one timestamp. -/
def RawRow.dt (r : RawRow) : Date × ℕ := (r.date, r.time)

/-- A processed DataFrame row after `load_and_process_data` has added the
`is_sunlight`, `hour`, `minute` and `is_free_window` columns.  The `month`
column is added later (only by `calculate_battery_recommendation`), so it
is an `Option`. -/
structure ARow where
  date : Date
  time : ℕ
  register : ℕ
  solarFlag : Bool
  quantity : ℚ
  is_sunlight : Bool
  hour : ℕ
  minute : ℕ
  is_free_window : Bool
  month : Option ℕ
deriving DecidableEq, Repr

/-- Annotation step of `load_and_process_data` (lines 157-167): mark a row
as sunlight iff its timestamp is in the set of generating timestamps, add
`hour`/`minute`, default `is_free_window` to false. -/
def annotateRow (gen : List (Date × ℕ)) (r : RawRow) : ARow :=
  { date := r.date
    time := r.time
    register := r.register
    solarFlag := r.solarFlag
    quantity := r.quantity
    is_sunlight := gen.contains r.dt
    hour := r.time / 60
    minute := r.time % 60
    is_free_window := false
    month := none }

/-- The cached processing result of `load_and_process_data`. -/
structure Dataset where
  consumption : List ARow
  exports : List ARow
  solar_start : Date
  data_end : Date
deriving DecidableEq, Repr

/-- `load_and_process_data` (lines 116-178), minus file IO and the cache:
find the valid solar-export rows, fail when there are none, compute
`solar_start`/`data_end`, drop rows before `solar_start`, split into the
consumption and export partitions and annotate both with the
observed-generation sunlight flag.
The rows with `Register == 2`, `SolarFlag == True` and
`ReadConsumption > 0` (lines 131-132): -/
def valid_export_rows (rows : List RawRow) : List RawRow :=
  (rows.filter (fun r => r.register == 2 && r.solarFlag)).filter
    (fun r => decide (0 < r.quantity))

/-- The error message of line 135. -/
def no_exports_msg : String :=
  "No solar exports found in data! Make sure the file contains Register=2 entries with SolarFlag=True."

/-- The `Dataset` built once at least one valid export row (`r0 :: rest`)
exists (lines 137-174). -/
def build_dataset (rows : List RawRow) (r0 : RawRow) (rest : List RawRow) : Dataset :=
  let solar_start := listMinDate r0.date (rest.map (fun r => r.date))
  let data_end :=
    match rows with
    | [] => r0.date
    | x :: xs => listMaxDate x.date (xs.map (fun r => r.date))
  let df_filtered := rows.filter (fun r => decide (Date.lexLE solar_start r.date))
  let consumption_rows := df_filtered.filter (fun r => r.register == 1)
  let export_rows := df_filtered.filter (fun r => r.register == 2 && r.solarFlag)
  let gen_times :=
    (export_rows.filter (fun r => decide ((1/1000 : ℚ) < r.quantity))).map RawRow.dt
  { consumption := consumption_rows.map (annotateRow gen_times)
    exports := export_rows.map (annotateRow gen_times)
    solar_start := solar_start
    data_end := data_end }

def load_and_process_data (rows : List RawRow) : Except String Dataset :=
  match valid_export_rows rows with
  | [] => Except.error no_exports_msg
  | r0 :: rest => Except.ok (build_dataset rows r0 rest)

/-- `filter_data_by_date_range` (lines 181-197): keep rows whose date lies
in the closed range. -/
def filter_data_by_date_range (consumption exports : List ARow)
    (start_date end_date : Date) : List ARow × List ARow :=
  (consumption.filter
     (fun r => decide (Date.lexLE start_date r.date) && decide (Date.lexLE r.date end_date)),
   exports.filter
     (fun r => decide (Date.lexLE start_date r.date) && decide (Date.lexLE r.date end_date)))

/-- `suggest_date_range` (lines 200-222).  Date construction goes through
`mkDate`; `none` models the `ValueError` that `datetime.date` raises on a
nonexistent anchor date (e.g. Feb 29 of a non-leap year). -/
def suggest_date_range (solar_start data_end : Date) : Option (Date × Date) :=
  let total_days : ℤ := (toOrdinal data_end : ℤ) - (toOrdinal solar_start : ℤ)
  if 365 ≤ total_days then
    match mkDate (data_end.y - 1) data_end.m data_end.d with
    | none => none
    | some suggested_start =>
      if Date.lexLT suggested_start solar_start then
        match mkDate (solar_start.y + 1) solar_start.m solar_start.d with
        | none => none
        | some suggested_end =>
          if Date.lexLT data_end suggested_end then some (solar_start, data_end)
          else some (solar_start, suggested_end)
      else some (suggested_start, data_end)
  else some (solar_start, data_end)

/-! ## Summary statistics (`get_summary_stats`, lines 279-318) -/

/-- Sum of `ReadConsumption` over the rows flagged as sunlight
(line 284, before rounding). -/
def sunlight_consumption (c : List ARow) : ℚ :=
  ((c.filter (fun r => r.is_sunlight)).map (fun r => r.quantity)).sum

/-- Sum of `ReadConsumption` over the rows not flagged as sunlight
(line 285, before rounding). -/
def night_consumption (c : List ARow) : ℚ :=
  ((c.filter (fun r => !r.is_sunlight)).map (fun r => r.quantity)).sum

/-- Sum of `ReadConsumption` over all consumption rows (line 286). -/
def total_consumption (c : List ARow) : ℚ :=
  (c.map (fun r => r.quantity)).sum

/-- Free-window consumption (line 290). -/
def free_window_consumption (c : List ARow) : ℚ :=
  ((c.filter (fun r => r.is_free_window)).map (fun r => r.quantity)).sum

/-- Sunlight consumption outside the free window (lines 292-294). -/
def paid_sunlight_consumption (c : List ARow) : ℚ :=
  ((c.filter (fun r => r.is_sunlight && !r.is_free_window)).map (fun r => r.quantity)).sum

/-- Number of distinct consumption dates (line 302). -/
def num_days (c : List ARow) : ℕ :=
  ((c.map (fun r => r.date)).dedup).length

/-- The dictionary returned by `get_summary_stats`.  The two per-day
averages are divided by `num_days` with no zero guard in the source; NumPy
turns that division by zero into NaN (with a warning, not an exception),
modelled here as `none`. -/
structure Stats where
  sunlight_consumption : ℚ
  night_consumption : ℚ
  total_consumption : ℚ
  free_window_consumption : ℚ
  paid_sunlight_consumption : ℚ
  sunlight_exports : ℚ
  total_exports : ℚ
  num_days : ℕ
  avg_daily_consumption : Option ℚ
  avg_daily_export : Option ℚ
  sunlight_pct : ℚ
  night_pct : ℚ
  free_window_pct : ℚ
deriving DecidableEq, Repr

/-- `get_summary_stats` (lines 279-318).  The `is_free_window` column is
always present in this embedding (the rows are typed), so the
`has_free_window` backward-compatibility branch is always taken. -/
def get_summary_stats (c e : List ARow) : Stats :=
  let sc := sunlight_consumption c
  let nc := night_consumption c
  let tc := total_consumption c
  let fwc := free_window_consumption c
  let psc := paid_sunlight_consumption c
  let se := ((e.filter (fun r => r.is_sunlight)).map (fun r => r.quantity)).sum
  let te := (e.map (fun r => r.quantity)).sum
  let nd := num_days c
  { sunlight_consumption := pyRound sc 2
    night_consumption := pyRound nc 2
    total_consumption := pyRound tc 2
    free_window_consumption := pyRound fwc 2
    paid_sunlight_consumption := pyRound psc 2
    sunlight_exports := pyRound se 2
    total_exports := pyRound te 2
    num_days := nd
    avg_daily_consumption := if nd = 0 then none else some (pyRound (tc / nd) 2)
    avg_daily_export := if nd = 0 then none else some (pyRound (te / nd) 2)
    sunlight_pct := if 0 < tc then pyRound (100 * sc / tc) 1 else 0
    night_pct := if 0 < tc then pyRound (100 * nc / tc) 1 else 0
    free_window_pct := if 0 < tc then pyRound (100 * fwc / tc) 1 else 0 }

/-! ## Battery sizing simulator (`calculate_battery_recommendation`, lines 321-503) -/

/-- Round-trip battery efficiency (line 391). -/
def battery_efficiency : ℚ := 0.90

/-- The fixed catalog of candidate battery capacities in kWh (line 398). -/
def battery_sizes : List ℚ :=
  [5, 8, 10, 13.5, 16, 20, 24, 27, 30, 32, 35, 40, 45, 48, 56, 64, 72, 80]

/-- Meteorological summer months in Australia (line 354). -/
def summer_months : List ℕ := [12, 1, 2]

/-- Meteorological winter months in Australia (line 353). -/
def winter_months : List ℕ := [6, 7, 8]

/-- Insertion into a sorted list of dates (Python date order). -/
def insertDate (x : Date) : List Date → List Date
  | [] => [x]
  | z :: zs => if Date.lexLE x z then x :: z :: zs else z :: insertDate x zs

/-- Sorted order of a list of dates, as a pandas groupby index is sorted. -/
def sortDates (l : List Date) : List Date :=
  l.foldr insertDate []

/-- Insertion into a sorted list of rationals. -/
def insertQ (x : ℚ) : List ℚ → List ℚ
  | [] => [x]
  | z :: zs => if x ≤ z then x :: z :: zs else z :: insertQ x zs

/-- Sorted order of a list of rationals. -/
def sortQ (l : List ℚ) : List ℚ :=
  l.foldr insertQ []

/-- The index of `daily_night` (line 326): sorted distinct dates appearing
among the non-sunlight consumption rows. -/
def all_dates (c : List ARow) : List Date :=
  sortDates ((c.filter (fun r => !r.is_sunlight)).map (fun r => r.date)).dedup

/-- `daily_night` as a function of the date (line 326): total non-sunlight
consumption on that date. -/
def daily_night (c : List ARow) (d : Date) : ℚ :=
  (((c.filter (fun r => !r.is_sunlight)).filter (fun r => r.date == d)).map
     (fun r => r.quantity)).sum

/-- `daily_export` reindexed to the night-consumption dates with
`fill_value=0` (lines 327-331): total export on that date, 0 when the date
has no export rows. -/
def daily_export (e : List ARow) (d : Date) : ℚ :=
  ((e.filter (fun r => r.date == d)).map (fun r => r.quantity)).sum

/-- Per-day battery offset (lines 409-412): store as much of the day's
export as fits into usable capacity, then offset at most the night usage. -/
def day_offset (usable_capacity export_available night_usage : ℚ) : ℚ :=
  let stored := min export_available usable_capacity
  min stored night_usage

/-- The `savings_per_day` list built by the loop of `calculate_savings`
(lines 402-413). -/
def savings_per_day (c e : List ARow) (battery_kwh : ℚ) : List ℚ :=
  (all_dates c).map
    (fun d => day_offset (battery_kwh * battery_efficiency) (daily_export e d) (daily_night c d))

/-- `np.mean`: arithmetic mean of a list.  (NumPy returns NaN on an empty
list; the `ℚ` convention 0/0 = 0 stands in for that unclaimed edge case.) -/
def npMean (l : List ℚ) : ℚ :=
  l.sum / l.length

/-- The dictionary returned by `calculate_savings` (lines 433-439). -/
structure SavingsResult where
  total_kwh_saved : ℚ
  avg_daily_savings : ℚ
  night_coverage_pct : ℚ
  summer_coverage_pct : ℚ
  winter_coverage_pct : ℚ
deriving DecidableEq, Repr

/-- `calculate_savings` (lines 400-439): simulate one battery capacity over
every day of the dataset and aggregate overall and seasonal coverage. -/
def calculate_savings (c e : List ARow) (battery_kwh : ℚ) : SavingsResult :=
  let dates := all_dates c
  let savings := savings_per_day c e battery_kwh
  let total_savings := savings.sum
  let night_total := (dates.map (daily_night c)).sum
  let coverage_pct := if 0 < night_total then total_savings / night_total * 100 else 0
  let summer_dates := dates.filter (fun d => summer_months.contains d.m)
  let winter_dates := dates.filter (fun d => winter_months.contains d.m)
  let summer_savings :=
    summer_dates.map
      (fun d => day_offset (battery_kwh * battery_efficiency) (daily_export e d) (daily_night c d))
  let winter_savings :=
    winter_dates.map
      (fun d => day_offset (battery_kwh * battery_efficiency) (daily_export e d) (daily_night c d))
  let summer_nights := summer_dates.map (daily_night c)
  let winter_nights := winter_dates.map (daily_night c)
  let summer_total_nights := if summer_nights.isEmpty then 1 else summer_nights.sum
  let winter_total_nights := if winter_nights.isEmpty then 1 else winter_nights.sum
  let summer_coverage :=
    if 0 < summer_total_nights then summer_savings.sum / summer_total_nights * 100 else 0
  let winter_coverage :=
    if 0 < winter_total_nights then winter_savings.sum / winter_total_nights * 100 else 0
  { total_kwh_saved := pyRound total_savings 1
    avg_daily_savings := pyRound (npMean savings) 2
    night_coverage_pct := pyRound coverage_pct 1
    summer_coverage_pct := pyRound summer_coverage 1
    winter_coverage_pct := pyRound winter_coverage 1 }

/-- pandas `Series.quantile` with the default linear interpolation, on the
sorted values. -/
def quantile (l : List ℚ) (q : ℚ) : ℚ :=
  let s := sortQ l
  let n := s.length
  if n = 0 then 0
  else
    let pos := q * ((n : ℚ) - 1)
    let i := (⌊pos⌋).toNat
    let frac := pos - (i : ℚ)
    let lo := s.getD i 0
    let hi := s.getD (i + 1) lo
    lo + frac * (hi - lo)

/-- Mean daily night consumption over the whole dataset (line 334). -/
def avg_night_consumption (c : List ARow) : ℚ :=
  npMean ((all_dates c).map (daily_night c))

/-- Seasonal daily night-consumption series (lines 356-371): filter the
consumption rows to the season's months, then group non-sunlight usage per
date; an empty seasonal frame falls back to the singleton all-data mean. -/
def season_daily_night (months : List ℕ) (c : List ARow) : List ℚ :=
  let sc := c.filter (fun r => months.contains r.date.m)
  if sc.isEmpty then [avg_night_consumption c]
  else (all_dates sc).map (daily_night sc)

/-- `summer_night_p90` (line 377). -/
def summer_night_p90 (c : List ARow) : ℚ :=
  let sdn := season_daily_night summer_months c
  if 0 < sdn.length then quantile sdn 0.90 else avg_night_consumption c

/-- `summer_night_p99` (line 378). -/
def summer_night_p99 (c : List ARow) : ℚ :=
  let sdn := season_daily_night summer_months c
  if 0 < sdn.length then quantile sdn 0.99 else avg_night_consumption c

/-- `winter_night_p90` (line 379). -/
def winter_night_p90 (c : List ARow) : ℚ :=
  let sdn := season_daily_night winter_months c
  if 0 < sdn.length then quantile sdn 0.90 else avg_night_consumption c

/-- `find_battery_for_usage` (lines 448-454): smallest catalog size whose
usable capacity covers the target, else the last catalog entry. -/
def find_battery_for_usage (target_kwh : ℚ) : ℚ :=
  let usable_needed := target_kwh / battery_efficiency
  match battery_sizes.find? (fun size => decide (usable_needed ≤ size)) with
  | some size => size
  | none => battery_sizes.getLastD 0

/-- The `month` column assignment of lines 349-350: this WRITES INTO the
DataFrames that were passed in (the cached Dataset), an in-place mutation
modelled by explicit state passing. -/
def add_month_column (l : List ARow) : List ARow :=
  l.map (fun r => { r with month := some r.date.m })

/-- The parts of the dictionary returned by `calculate_battery_recommendation`
that the claims refer to (lines 472-503). -/
structure BatteryRec where
  minimum_kwh : ℚ
  sweet_spot_kwh : ℚ
  maximum_kwh : ℚ
  battery_analysis : List (ℚ × SavingsResult)
deriving DecidableEq, Repr

/-- `calculate_battery_recommendation` (lines 321-503): returns its result
TOGETHER WITH the final states of the two frames it received, because
lines 349-350 mutate them (adding a `month` column) before the analysis. -/
def calculate_battery_recommendation (c e : List ARow) :
    BatteryRec × List ARow × List ARow :=
  let c2 := add_month_column c
  let e2 := add_month_column e
  let analysis := battery_sizes.map (fun size => (size, calculate_savings c2 e2 size))
  ({ minimum_kwh := find_battery_for_usage (summer_night_p90 c2)
     sweet_spot_kwh := find_battery_for_usage (summer_night_p99 c2)
     maximum_kwh := find_battery_for_usage (winter_night_p90 c2)
     battery_analysis := analysis },
   c2, e2)

/-! ## Free-window classification (`get_data`, lines 630-648) -/

/-- Python `s.split(':')` on the character sequence: split into the
(always nonempty) list of colon-separated fields. -/
def splitColon : List Char → List (List Char)
  | [] => [[]]
  | ch :: rest =>
    if ch = ':' then [] :: splitColon rest
    else
      match splitColon rest with
      | [] => [[ch]]
      | g :: gs => (ch :: g) :: gs

/-- Numeric value of a list of decimal digits. -/
def digitsVal (cs : List Char) : ℕ :=
  cs.foldl (fun acc ch => acc * 10 + (ch.toNat - 48)) 0

/-- The whitespace characters CPython's `int()` strips, within the ASCII
range: 0x09-0x0D, 0x1C-0x1F and the space 0x20. -/
def isPySpace (ch : Char) : Bool :=
  decide (ch.toNat = 32 ∨ (9 ≤ ch.toNat ∧ ch.toNat ≤ 13) ∨
          (28 ≤ ch.toNat ∧ ch.toNat ≤ 31))

/-- Strip leading and trailing whitespace, as `int()` does before
parsing. -/
def stripSpaces (cs : List Char) : List Char :=
  ((cs.dropWhile isPySpace).reverse.dropWhile isPySpace).reverse

/-- Valid continuation after a digit: further digits, with single
underscores allowed only between digits (PEP 515), as `int()` accepts. -/
def digitsTail : List Char → Bool
  | [] => true
  | '_' :: d :: rest => d.isDigit && digitsTail rest
  | d :: rest => d.isDigit && digitsTail rest

/-- A digit body for `int()`: at least one digit, then `digitsTail`
(so no leading, trailing or doubled underscore). -/
def digitsBody : List Char → Bool
  | [] => false
  | d :: rest => d.isDigit && digitsTail rest

/-- Python `int(field)` for a window field: strip surrounding whitespace,
allow one optional `+`/`-` sign, then decimal digits with single
underscores between digits; anything else raises `ValueError` (`none`).
CPython additionally accepts non-ASCII Unicode digit and space
characters; this model covers the ASCII character set, and is exact on
ASCII input. -/
def fieldToInt (cs : List Char) : Option ℤ :=
  match stripSpaces cs with
  | [] => none
  | ch :: rest =>
    if ch = '+' then
      if digitsBody rest then
        some ((digitsVal (rest.filter (fun c2 => c2.isDigit)) : ℕ) : ℤ)
      else none
    else if ch = '-' then
      if digitsBody rest then
        some (-((digitsVal (rest.filter (fun c2 => c2.isDigit)) : ℕ) : ℤ))
      else none
    else
      if digitsBody (ch :: rest) then
        some ((digitsVal ((ch :: rest).filter (fun c2 => c2.isDigit)) : ℕ) : ℤ)
      else none

/-- Parse one `HH:MM` window bound into minutes since midnight, as
`map(int, s.split(':'))` with tuple unpacking does: exactly two
colon-separated `int()` fields, else the `ValueError` branch (`none`).
The result is an integer: `int()` can produce negative bounds
(e.g. `-5:00` parses to -300 minutes). -/
def parse_minutes (s : String) : Option ℤ :=
  match splitColon s.toList with
  | [hs, ms] =>
    match fieldToInt hs, fieldToInt ms with
    | some hh, some mm => some (hh * 60 + mm)
    | _, _ => none
  | _ => none

/-- The free-window annotation of lines 630-648 (with the feature enabled):
each reading's minutes-since-midnight (a nonnegative integer) is compared
against the parsed integer bounds; on a parse failure of either bound, the
`except` branch sets the flag to false for every reading instead of
failing the request. -/
def apply_free_window (fws fwe : String) (c e : List ARow) :
    List ARow × List ARow :=
  match parse_minutes fws, parse_minutes fwe with
  | some start_minutes, some end_minutes =>
    (c.map (fun r =>
       { r with is_free_window :=
           decide (start_minutes ≤ ((r.hour * 60 + r.minute : ℕ) : ℤ) ∧
                   ((r.hour * 60 + r.minute : ℕ) : ℤ) < end_minutes) }),
     e.map (fun r =>
       { r with is_free_window :=
           decide (start_minutes ≤ ((r.hour * 60 + r.minute : ℕ) : ℤ) ∧
                   ((r.hour * 60 + r.minute : ℕ) : ℤ) < end_minutes) }))
  | _, _ =>
    (c.map (fun r => { r with is_free_window := false }),
     e.map (fun r => { r with is_free_window := false }))

/-! ## Claim theorems -/

theorem sum_filter_partition (p : ARow → Bool) (l : List ARow) :
    ((l.filter p).map (fun r => r.quantity)).sum +
      ((l.filter (fun r => !p r)).map (fun r => r.quantity)).sum =
      (l.map (fun r => r.quantity)).sum := by
  induction l with
  | nil => simp
  | cons a t ih =>
    cases hp : p a <;>
      simp [List.filter_cons, hp] <;>
      linarith [ih]

/-- C1: `is_sunlight` is a total boolean classification of the consumption
rows, so the unrounded sunlight and night sums (lines 284-286 of
`get_summary_stats`) add up to the total sum exactly, both on the full
annotated series and on any date sub-range of it. -/
theorem sunlight_night_partition :
    ∀ (consumption exports : List ARow) (start_date end_date : Date),
      sunlight_consumption consumption + night_consumption consumption =
        total_consumption consumption ∧
      sunlight_consumption
          (filter_data_by_date_range consumption exports start_date end_date).1 +
        night_consumption
          (filter_data_by_date_range consumption exports start_date end_date).1 =
        total_consumption
          (filter_data_by_date_range consumption exports start_date end_date).1 := by
  intro c e sd ed
  constructor
  · exact sum_filter_partition (fun r => r.is_sunlight) c
  · exact sum_filter_partition (fun r => r.is_sunlight) _

/-- C5: each day's battery offset in `calculate_savings` is
`min(min(daily_export, usable_capacity), daily_night)` with
`usable_capacity = capacity * 0.90`, and the scenario
`daily_export = 10`, `daily_night = 8`, `capacity = 10` yields offset 8. -/
theorem battery_offset_formula :
    ∀ (c e : List ARow) (battery_kwh : ℚ),
      savings_per_day c e battery_kwh =
        (all_dates c).map (fun d =>
          min (min (daily_export e d) (battery_kwh * battery_efficiency))
            (daily_night c d)) ∧
      battery_kwh * battery_efficiency = battery_kwh * (9 / 10) ∧
      day_offset (10 * battery_efficiency) 10 8 = 8 ∧
      savings_per_day
          [{ date := Date.mk 2024 1 15, time := 1230, register := 1, solarFlag := false,
             quantity := 8, is_sunlight := false, hour := 20, minute := 30,
             is_free_window := false, month := none }]
          [{ date := Date.mk 2024 1 15, time := 720, register := 2, solarFlag := true,
             quantity := 10, is_sunlight := true, hour := 12, minute := 0,
             is_free_window := false, month := none }]
          10 = [8] := by
  intro c e k
  refine ⟨rfl, by norm_num [battery_efficiency], by norm_num [day_offset, battery_efficiency], ?_⟩
  norm_num [savings_per_day, all_dates, sortDates, insertDate, daily_export, daily_night,
    day_offset, battery_efficiency, List.filter, List.dedup, min_def]

/-- C7 counterexample: with zero data days `get_summary_stats` does NOT
report per-day averages of 0 — the unguarded divisions
`total_consumption / num_days` and `total_exports / num_days`
(lines 313-314) are NumPy divisions by zero, i.e. NaN (`none`), so the
claim that the averages are "well-defined (0, not an error)" is false. -/
theorem summary_stats_avg_counterexample :
    (get_summary_stats [] []).num_days = 0 ∧
    (get_summary_stats [] []).avg_daily_consumption ≠ some 0 ∧
    (get_summary_stats [] []).avg_daily_export ≠ some 0 := by
  decide

/-- C7 (amended): `get_summary_stats` totally computes a result for every
input (no exception); the three percentage fields are 0 when total
consumption is 0 (explicit guard, lines 315-317); but with zero data days
the two per-day averages are NaN (`none`), not 0 (no guard on the
`num_days` divisor, lines 313-314). -/
theorem summary_stats_zero_guard :
    ∀ (c e : List ARow),
      (total_consumption c = 0 →
        (get_summary_stats c e).sunlight_pct = 0 ∧
        (get_summary_stats c e).night_pct = 0 ∧
        (get_summary_stats c e).free_window_pct = 0) ∧
      (num_days c = 0 →
        (get_summary_stats c e).avg_daily_consumption = none ∧
        (get_summary_stats c e).avg_daily_export = none) := by
  intro c e
  constructor
  · intro h
    have h1 : (get_summary_stats c e).sunlight_pct =
        if 0 < total_consumption c then pyRound (100 * sunlight_consumption c / total_consumption c) 1 else 0 := rfl
    have h2 : (get_summary_stats c e).night_pct =
        if 0 < total_consumption c then pyRound (100 * night_consumption c / total_consumption c) 1 else 0 := rfl
    have h3 : (get_summary_stats c e).free_window_pct =
        if 0 < total_consumption c then pyRound (100 * free_window_consumption c / total_consumption c) 1 else 0 := rfl
    rw [h1, h2, h3, h]
    norm_num
  · intro h
    have h1 : (get_summary_stats c e).avg_daily_consumption =
        if num_days c = 0 then none
        else some (pyRound (total_consumption c / (num_days c : ℚ)) 2) := rfl
    have h2 : (get_summary_stats c e).avg_daily_export =
        if num_days c = 0 then none
        else some (pyRound ((e.map (fun r => r.quantity)).sum / (num_days c : ℚ)) 2) := rfl
    rw [h1, h2, if_pos h, if_pos h]
    exact ⟨rfl, rfl⟩

theorem summary_stats_zero_guard_witness :
    (get_summary_stats [] []).sunlight_pct = 0 ∧
    (get_summary_stats [] []).avg_daily_consumption = none :=
  ⟨((summary_stats_zero_guard [] []).1 (by decide)).1,
   ((summary_stats_zero_guard [] []).2 (by decide)).1⟩

/-- C10 counterexample: `calculate_battery_recommendation` is NOT pure over
the Dataset it receives — lines 349-350 assign a `month` column into the
cached consumption and export frames (the very frames `get_data` passes at
line 722), so the consumption series afterwards differs from the one
passed in. -/
theorem battery_rec_mutates_counterexample :
    (calculate_battery_recommendation
        [{ date := Date.mk 2024 1 15, time := 1230, register := 1, solarFlag := false,
           quantity := 8, is_sunlight := false, hour := 20, minute := 30,
           is_free_window := false, month := none }]
        []).2.1 ≠
      [{ date := Date.mk 2024 1 15, time := 1230, register := 1, solarFlag := false,
         quantity := 8, is_sunlight := false, hour := 20, minute := 30,
         is_free_window := false, month := none }] := by
  decide

/-- C10 (amended): the only shared-state effect of
`calculate_battery_recommendation` on the Dataset frames is adding the
`month` column (set to each reading's calendar month); every other column
of the consumption and export series is left unchanged. -/
theorem battery_rec_frame :
    ∀ (c e : List ARow),
      (calculate_battery_recommendation c e).2.1 = add_month_column c ∧
      (calculate_battery_recommendation c e).2.2 = add_month_column e ∧
      (add_month_column c).map (fun r => r.date) = c.map (fun r => r.date) ∧
      (add_month_column c).map (fun r => r.time) = c.map (fun r => r.time) ∧
      (add_month_column c).map (fun r => r.quantity) = c.map (fun r => r.quantity) ∧
      (add_month_column c).map (fun r => r.is_sunlight) = c.map (fun r => r.is_sunlight) ∧
      (add_month_column c).map (fun r => r.is_free_window) = c.map (fun r => r.is_free_window) ∧
      (add_month_column c).map (fun r => r.month) = c.map (fun r => some r.date.m) ∧
      (add_month_column e).map (fun r => r.quantity) = e.map (fun r => r.quantity) := by
  intro c e
  refine ⟨rfl, rfl, ?_, ?_, ?_, ?_, ?_, ?_, ?_⟩ <;>
    simp [add_month_column, List.map_map]

theorem mem_valid_export_rows (rows : List RawRow) (r : RawRow) :
    r ∈ valid_export_rows rows ↔
      r ∈ rows ∧ r.register = 2 ∧ r.solarFlag = true ∧ 0 < r.quantity := by
  simp [valid_export_rows, List.mem_filter, and_assoc]
  tauto

/-- C3: ingestion fails with the `ValidationError` message iff no row has
register=SolarExport, solar-flag=true and quantity > 0; with such a row it
returns a Dataset (no other content condition raises). -/
theorem ingest_validation :
    ∀ rows : List RawRow,
      ((∃ r, r ∈ rows ∧ r.register = 2 ∧ r.solarFlag = true ∧ 0 < r.quantity) ↔
        ∃ d, load_and_process_data rows = Except.ok d) ∧
      ((¬ ∃ r, r ∈ rows ∧ r.register = 2 ∧ r.solarFlag = true ∧ 0 < r.quantity) ↔
        load_and_process_data rows = Except.error no_exports_msg) := by
  intro rows
  have hload : load_and_process_data rows =
      match valid_export_rows rows with
      | [] => Except.error no_exports_msg
      | r0 :: rest => Except.ok (build_dataset rows r0 rest) := rfl
  cases hnz : valid_export_rows rows with
  | nil =>
    rw [hnz] at hload
    have hno : ¬ ∃ r, r ∈ rows ∧ r.register = 2 ∧ r.solarFlag = true ∧ 0 < r.quantity := by
      rintro ⟨r, hr, h2, h3, h4⟩
      have hmem : r ∈ valid_export_rows rows :=
        (mem_valid_export_rows rows r).2 ⟨hr, h2, h3, h4⟩
      rw [hnz] at hmem
      exact absurd hmem (List.not_mem_nil r)
    refine ⟨⟨fun h => absurd h hno, ?_⟩, ?_⟩
    · rintro ⟨dd, hd⟩
      rw [hload] at hd
      exact absurd hd (by simp)
    · simp [hload, hno]
  | cons r0 rest =>
    rw [hnz] at hload
    have hyes : ∃ r, r ∈ rows ∧ r.register = 2 ∧ r.solarFlag = true ∧ 0 < r.quantity := by
      have hmem : r0 ∈ valid_export_rows rows := by
        rw [hnz]
        exact List.mem_cons_self r0 rest
      obtain ⟨hr, h2, h3, h4⟩ := (mem_valid_export_rows rows r0).1 hmem
      exact ⟨r0, hr, h2, h3, h4⟩
    refine ⟨⟨fun _ => ⟨build_dataset rows r0 rest, hload⟩, fun _ => hyes⟩, ?_⟩
    constructor
    · intro h
      exact absurd hyes h
    · intro h
      rw [hload] at h
      exact absurd h (by simp)

/-- C2: on successful ingestion, `solar_start` is the minimum date among
the valid nonzero solar-export rows of the whole input, `data_end` is the
maximum date over the whole file, and every reading kept in either
partition is dated no earlier than `solar_start`. -/
theorem load_bounds :
    ∀ (rows : List RawRow) (d : Dataset),
      load_and_process_data rows = Except.ok d →
      ((∃ r, r ∈ rows ∧ r.register = 2 ∧ r.solarFlag = true ∧ 0 < r.quantity ∧
          r.date = d.solar_start) ∧
       (∀ r, r ∈ rows → r.register = 2 → r.solarFlag = true → 0 < r.quantity →
          Date.lexLE d.solar_start r.date)) ∧
      ((∃ r, r ∈ rows ∧ r.date = d.data_end) ∧
       (∀ r, r ∈ rows → Date.lexLE r.date d.data_end)) ∧
      (∀ a, a ∈ d.consumption → Date.lexLE d.solar_start a.date) ∧
      (∀ a, a ∈ d.exports → Date.lexLE d.solar_start a.date) := by
  intro rows d h
  unfold load_and_process_data at h
  rw [show valid_export_rows rows = valid_export_rows rows from rfl] at h
  cases hnz : valid_export_rows rows with
  | nil =>
    rw [hnz] at h
    exact absurd h (by simp)
  | cons r0 rest =>
    rw [hnz] at h
    have hd : build_dataset rows r0 rest = d := by
      injection h
    subst hd
    have hss : (build_dataset rows r0 rest).solar_start =
        listMinDate r0.date (rest.map (fun r => r.date)) := rfl
    have hvalid_sub : ∀ r, r ∈ r0 :: rest →
        r ∈ rows ∧ r.register = 2 ∧ r.solarFlag = true ∧ 0 < r.quantity := by
      intro r hr
      have : r ∈ valid_export_rows rows := by rw [hnz]; exact hr
      exact (mem_valid_export_rows rows r).1 this
    have hr0 := hvalid_sub r0 (List.mem_cons_self r0 rest)
    refine ⟨⟨?_, ?_⟩, ⟨?_, ?_⟩, ?_, ?_⟩
    · -- solar_start is attained by a valid export row
      rw [hss]
      rcases listMinDate_mem r0.date (rest.map (fun r => r.date)) with hm | hm
      · exact ⟨r0, hr0.1, hr0.2.1, hr0.2.2.1, hr0.2.2.2, hm.symm⟩
      · rcases List.mem_map.1 hm with ⟨rr, hrr, hdd⟩
        have := hvalid_sub rr (List.mem_cons_of_mem r0 hrr)
        exact ⟨rr, this.1, this.2.1, this.2.2.1, this.2.2.2, hdd⟩
    · -- solar_start is a lower bound on valid export row dates
      intro r hr h2 h3 h4
      have hmem : r ∈ valid_export_rows rows :=
        (mem_valid_export_rows rows r).2 ⟨hr, h2, h3, h4⟩
      rw [hnz] at hmem
      rw [hss]
      rcases List.mem_cons.1 hmem with heq | hmem
      · rw [heq]
        exact (listMinDate_le r0.date (rest.map (fun r => r.date))).1
      · exact (listMinDate_le r0.date (rest.map (fun r => r.date))).2 r.date
          (List.mem_map.2 ⟨r, hmem, rfl⟩)
    · -- data_end is attained
      have hr0rows : r0 ∈ rows := hr0.1
      cases hrows : rows with
      | nil =>
        rw [hrows] at hr0rows
        exact absurd hr0rows (List.not_mem_nil r0)
      | cons x xs =>
        subst hrows
        have hde : (build_dataset (x :: xs) r0 rest).data_end =
            listMaxDate x.date (xs.map (fun r => r.date)) := rfl
        rw [hde]
        rcases listMaxDate_mem x.date (xs.map (fun r => r.date)) with hm | hm
        · exact ⟨x, List.mem_cons_self x xs, hm.symm⟩
        · rcases List.mem_map.1 hm with ⟨rr, hrr, hdd⟩
          exact ⟨rr, List.mem_cons_of_mem x hrr, hdd⟩
    · -- data_end is an upper bound over the whole file
      intro r hr
      cases hrows : rows with
      | nil =>
        rw [hrows] at hr
        exact absurd hr (List.not_mem_nil r)
      | cons x xs =>
        subst hrows
        have hde : (build_dataset (x :: xs) r0 rest).data_end =
            listMaxDate x.date (xs.map (fun r => r.date)) := rfl
        rw [hde]
        rcases List.mem_cons.1 hr with heq | hmem
        · rw [heq]
          exact (listMaxDate_ge x.date (xs.map (fun r => r.date))).1
        · exact (listMaxDate_ge x.date (xs.map (fun r => r.date))).2 r.date
            (List.mem_map.2 ⟨r, hmem, rfl⟩)
    · -- every kept consumption reading is dated at or after solar_start
      intro a ha
      simp only [build_dataset] at ha
      rcases List.mem_map.1 ha with ⟨r, hr, hra⟩
      have hq := (List.mem_filter.1 (List.mem_filter.1 hr).1).2
      have hdate : a.date = r.date := by rw [← hra]; rfl
      rw [hss, hdate]
      exact of_decide_eq_true hq
    · -- every kept export reading is dated at or after solar_start
      intro a ha
      simp only [build_dataset] at ha
      rcases List.mem_map.1 ha with ⟨r, hr, hra⟩
      have hq := (List.mem_filter.1 (List.mem_filter.1 hr).1).2
      have hdate : a.date = r.date := by rw [← hra]; rfl
      rw [hss, hdate]
      exact of_decide_eq_true hq

instance {ε α : Type} [DecidableEq ε] [DecidableEq α] : DecidableEq (Except ε α) :=
  fun a b =>
    match a, b with
    | Except.error x, Except.error y => decidable_of_iff (x = y) (by simp)
    | Except.error _, Except.ok _ => isFalse (by simp)
    | Except.ok _, Except.error _ => isFalse (by simp)
    | Except.ok x, Except.ok y => decidable_of_iff (x = y) (by simp)

theorem load_bounds_witness :
    ∃ r, r ∈ [RawRow.mk (Date.mk 2024 1 1) 720 2 true 5] ∧ r.register = 2 ∧
      r.solarFlag = true ∧ 0 < r.quantity ∧
      r.date = (Dataset.mk []
        [ARow.mk (Date.mk 2024 1 1) 720 2 true 5 true 12 0 false none]
        (Date.mk 2024 1 1) (Date.mk 2024 1 1)).solar_start :=
  (load_bounds [RawRow.mk (Date.mk 2024 1 1) 720 2 true 5]
    (Dataset.mk []
      [ARow.mk (Date.mk 2024 1 1) 720 2 true 5 true 12 0 false none]
      (Date.mk 2024 1 1) (Date.mk 2024 1 1))
    (by norm_num [load_and_process_data, valid_export_rows, build_dataset,
      annotateRow, RawRow.dt, listMinDate, listMaxDate, List.filter,
      List.contains, List.elem, Date.lexLE, Date.lexLT] <;> decide)).1.1

theorem day_offset_mono {u1 u2 x y : ℚ} (h : u1 ≤ u2) :
    day_offset u1 x y ≤ day_offset u2 x y := by
  unfold day_offset
  exact min_le_min (min_le_min le_rfl h) le_rfl

/-- C4: for a fixed dataset the overall night-coverage percentage of the
battery simulation is monotonically non-decreasing in battery capacity
(any two capacities with `c1 ≤ c2`, so in particular any two catalog
capacities). -/
theorem coverage_monotone :
    ∀ (c e : List ARow) (c1 c2 : ℚ), c1 ≤ c2 →
      (calculate_savings c e c1).night_coverage_pct ≤
        (calculate_savings c e c2).night_coverage_pct := by
  intro c e c1 c2 h
  have hproj : ∀ k : ℚ, (calculate_savings c e k).night_coverage_pct =
      pyRound
        (if 0 < ((all_dates c).map (daily_night c)).sum
         then (savings_per_day c e k).sum / ((all_dates c).map (daily_night c)).sum * 100
         else 0) 1 := fun k => rfl
  rw [hproj c1, hproj c2]
  apply pyRound_mono
  have husable : c1 * battery_efficiency ≤ c2 * battery_efficiency := by
    apply mul_le_mul_of_nonneg_right h
    norm_num [battery_efficiency]
  have hsum : (savings_per_day c e c1).sum ≤ (savings_per_day c e c2).sum := by
    unfold savings_per_day
    apply List.sum_le_sum
    intro d _
    exact day_offset_mono husable
  by_cases hT : 0 < ((all_dates c).map (daily_night c)).sum
  · rw [if_pos hT, if_pos hT]
    exact mul_le_mul_of_nonneg_right
      (div_le_div_of_nonneg_right hsum hT.le) (by norm_num)
  · rw [if_neg hT, if_neg hT]

theorem coverage_monotone_witness :
    (calculate_savings
        [ARow.mk (Date.mk 2024 1 15) 1230 1 false 10 false 20 30 false none]
        [ARow.mk (Date.mk 2024 1 15) 720 2 true 5 true 12 0 false none]
        1).night_coverage_pct ≤
      (calculate_savings
        [ARow.mk (Date.mk 2024 1 15) 1230 1 false 10 false 20 30 false none]
        [ARow.mk (Date.mk 2024 1 15) 720 2 true 5 true 12 0 false none]
        2).night_coverage_pct :=
  coverage_monotone
    [ARow.mk (Date.mk 2024 1 15) 1230 1 false 10 false 20 30 false none]
    [ARow.mk (Date.mk 2024 1 15) 720 2 true 5 true 12 0 false none]
    1 2 (by norm_num)

theorem find_first_sorted (p : ℚ → Bool) :
    ∀ (l : List ℚ), l.Pairwise (· ≤ ·) → ∀ x ∈ l, p x = true →
      ∃ a, l.find? p = some a ∧ a ∈ l ∧ p a = true ∧ a ≤ x := by
  intro l
  induction l with
  | nil => intro _ x hx; exact absurd hx (List.not_mem_nil x)
  | cons b t ih =>
    intro hs x hx hpx
    rcases List.pairwise_cons.1 hs with ⟨hb, ht⟩
    cases hpb : p b with
    | true =>
      refine ⟨b, List.find?_cons_of_pos t hpb, List.mem_cons_self b t, hpb, ?_⟩
      rcases List.mem_cons.1 hx with heq | hxt
      · rw [heq]
      · exact hb x hxt
    | false =>
      have hxt : x ∈ t := by
        rcases List.mem_cons.1 hx with heq | hxt
        · rw [heq] at hpx
          rw [hpx] at hpb
          cases hpb
        · exact hxt
      obtain ⟨a, hfind, hmem, hpa, hax⟩ := ih ht x hxt hpx
      exact ⟨a, by rw [List.find?_cons_of_neg t (by simp [hpb]), hfind],
        List.mem_cons_of_mem b hmem, hpa, hax⟩

/-- C6: `find_battery_for_usage` returns the smallest catalog capacity
whose usable capacity (`capacity * 0.90`) covers the target, or the
largest catalog capacity (80 kWh) when none suffices; the minimum /
sweet-spot / maximum recommendations apply exactly this rule to the summer
90th-percentile, summer 99th-percentile and winter 90th-percentile daily
night usage respectively. -/
theorem battery_recommendation_rule :
    ∀ t : ℚ,
      (∀ cap, cap ∈ battery_sizes → t ≤ battery_efficiency * cap →
        (find_battery_for_usage t ∈ battery_sizes ∧
         t ≤ battery_efficiency * find_battery_for_usage t ∧
         find_battery_for_usage t ≤ cap)) ∧
      ((∀ cap, cap ∈ battery_sizes → battery_efficiency * cap < t) →
        find_battery_for_usage t = 80) ∧
      (∀ c e : List ARow,
        (calculate_battery_recommendation c e).1.minimum_kwh =
          find_battery_for_usage (summer_night_p90 (add_month_column c)) ∧
        (calculate_battery_recommendation c e).1.sweet_spot_kwh =
          find_battery_for_usage (summer_night_p99 (add_month_column c)) ∧
        (calculate_battery_recommendation c e).1.maximum_kwh =
          find_battery_for_usage (winter_night_p90 (add_month_column c))) := by
  intro t
  have heff : (0 : ℚ) < battery_efficiency := by norm_num [battery_efficiency]
  have hpred : ∀ cap : ℚ, (decide (t / battery_efficiency ≤ cap) = true) ↔
      t ≤ battery_efficiency * cap := by
    intro cap
    rw [decide_eq_true_eq, div_le_iff₀ heff, mul_comm]
  have hsorted : battery_sizes.Pairwise (· ≤ ·) := by
    norm_num [battery_sizes, List.pairwise_cons]
  refine ⟨?_, ?_, ?_⟩
  · intro cap hcap ht
    obtain ⟨a, hfind, hmem, hpa, hax⟩ :=
      find_first_sorted (fun size => decide (t / battery_efficiency ≤ size))
        battery_sizes hsorted cap hcap ((hpred cap).2 ht)
    have hres : find_battery_for_usage t = a := by
      simp only [find_battery_for_usage]
      rw [hfind]
    rw [hres]
    exact ⟨hmem, (hpred a).1 hpa, hax⟩
  · intro hall
    have hnone : battery_sizes.find? (fun size => decide (t / battery_efficiency ≤ size)) = none := by
      rw [List.find?_eq_none]
      intro x hx
      simp only [Bool.not_eq_true]
      rw [← Bool.not_eq_true]
      intro hcon
      have := (hpred x).1 hcon
      exact absurd this (not_le.2 (hall x hx))
    simp only [find_battery_for_usage]
    rw [hnone]
    norm_num [battery_sizes]
  · intro c e
    exact ⟨rfl, rfl, rfl⟩

theorem battery_recommendation_rule_witness :
    find_battery_for_usage 12 ∈ battery_sizes ∧
    (12 : ℚ) ≤ battery_efficiency * find_battery_for_usage 12 ∧
    find_battery_for_usage 12 ≤ 13.5 :=
  (battery_recommendation_rule 12).1 13.5
    (by norm_num [battery_sizes])
    (by norm_num [battery_efficiency])

/-- C9: with a parsable `HH:MM` window, a reading's `is_free_window` flag
is true iff its minutes-since-midnight is `>= start` and `< end` — the
start boundary is included (for a nonempty window) and the end boundary is
excluded; with a window string on which `int()` raises, the flag is set to
false for every reading instead of failing.  The parse model of `int()`
is exact on ASCII strings (whitespace, sign and underscore handling
included), so the malformed clause quantifies over ASCII window strings;
a successful parse is faithful unconditionally, since the parser only
accepts ASCII input. -/
theorem free_window_halfopen :
    ∀ (fws fwe : String) (c e : List ARow),
      (∀ start_minutes end_minutes : ℤ,
        parse_minutes fws = some start_minutes →
        parse_minutes fwe = some end_minutes →
        ((apply_free_window fws fwe c e).1 =
           c.map (fun r =>
             { r with is_free_window :=
                 decide (start_minutes ≤ ((r.hour * 60 + r.minute : ℕ) : ℤ) ∧
                         ((r.hour * 60 + r.minute : ℕ) : ℤ) < end_minutes) }) ∧
         (apply_free_window fws fwe c e).2 =
           e.map (fun r =>
             { r with is_free_window :=
                 decide (start_minutes ≤ ((r.hour * 60 + r.minute : ℕ) : ℤ) ∧
                         ((r.hour * 60 + r.minute : ℕ) : ℤ) < end_minutes) }) ∧
         (∀ r, r ∈ (apply_free_window fws fwe c e).1 →
           (((r.hour * 60 + r.minute : ℕ) : ℤ) = start_minutes →
             start_minutes < end_minutes → r.is_free_window = true) ∧
           (((r.hour * 60 + r.minute : ℕ) : ℤ) = end_minutes →
             r.is_free_window = false)))) ∧
      (fws.toList.all (fun ch => decide (ch.toNat < 128)) = true →
       fwe.toList.all (fun ch => decide (ch.toNat < 128)) = true →
       (parse_minutes fws = none ∨ parse_minutes fwe = none) →
        (∀ r, r ∈ (apply_free_window fws fwe c e).1 → r.is_free_window = false) ∧
        (∀ r, r ∈ (apply_free_window fws fwe c e).2 → r.is_free_window = false)) := by
  intro fws fwe c e
  constructor
  · intro sm em h1 h2
    have happ : apply_free_window fws fwe c e =
        (c.map (fun r =>
           { r with is_free_window :=
               decide (sm ≤ ((r.hour * 60 + r.minute : ℕ) : ℤ) ∧
                       ((r.hour * 60 + r.minute : ℕ) : ℤ) < em) }),
         e.map (fun r =>
           { r with is_free_window :=
               decide (sm ≤ ((r.hour * 60 + r.minute : ℕ) : ℤ) ∧
                       ((r.hour * 60 + r.minute : ℕ) : ℤ) < em) })) := by
      unfold apply_free_window
      rw [h1, h2]
    refine ⟨by rw [happ], by rw [happ], ?_⟩
    intro r hr
    rw [happ] at hr
    rcases List.mem_map.1 hr with ⟨r0, _, hr0⟩
    constructor
    · intro hb hlt
      rw [← hr0] at hb ⊢
      simp only at hb ⊢
      rw [hb]
      simp [hlt]
    · intro hb
      rw [← hr0] at hb ⊢
      simp only at hb ⊢
      rw [hb]
      simp
  · intro _ _ hbad
    have happ : apply_free_window fws fwe c e =
        (c.map (fun r => { r with is_free_window := false }),
         e.map (fun r => { r with is_free_window := false })) := by
      unfold apply_free_window
      rcases hbad with hb | hb
      · rw [hb]
      · rw [hb]
        cases parse_minutes fws <;> rfl
    constructor
    · intro r hr
      rw [happ] at hr
      rcases List.mem_map.1 hr with ⟨r0, _, hr0⟩
      rw [← hr0]
    · intro r hr
      rw [happ] at hr
      rcases List.mem_map.1 hr with ⟨r0, _, hr0⟩
      rw [← hr0]

theorem free_window_halfopen_witness :
    (apply_free_window ("11:00") ("14:00")
        [ARow.mk (Date.mk 2024 1 15) 660 1 false 1 false 11 0 false none]
        []).1 =
      [ARow.mk (Date.mk 2024 1 15) 660 1 false 1 false 11 0 true none] := by
  have h := ((free_window_halfopen ("11:00") ("14:00")
      [ARow.mk (Date.mk 2024 1 15) 660 1 false 1 false 11 0 false none]
      []).1 (660 : ℤ) (840 : ℤ) (by decide) (by decide)).1
  rw [h]
  rfl

/-- C8 counterexample: the claim says a span of at least 365 days always
yields the most recent full year, but when `data_end` is Feb 29 the
anchor `date(data_end.year - 1, data_end.month, data_end.day)` of line 210
does not exist and `suggest_date_range` raises `ValueError` (`none`)
instead of returning a range. -/
theorem suggest_range_feb29_counterexample :
    (Date.mk 2023 3 1).valid ∧ (Date.mk 2024 2 29).valid ∧
    365 ≤ (toOrdinal (Date.mk 2024 2 29) : ℤ) - (toOrdinal (Date.mk 2023 3 1) : ℤ) ∧
    suggest_date_range (Date.mk 2023 3 1) (Date.mk 2024 2 29) = none := by
  decide

/-- C8 (amended): for valid bounds, when the span is below 365 days the
whole span is suggested; when the span is at least 365 days and `data_end`
is not Feb 29, the suggestion anchors at `data_end` with year - 1, clamped
to `solar_start`, and the clamped window is `solar_start` plus one year
(when that date exists, i.e. `solar_start` is not Feb 29) capped at
`data_end`; when an anchor falls on a nonexistent Feb 29 the function
raises instead.  The two spec scenarios (400-day span suggesting
[day 35, day 400], 200-day span suggesting the whole span) hold. -/
theorem suggest_range_rule :
    ∀ (s e : Date), s.valid → e.valid →
      ((toOrdinal e : ℤ) - (toOrdinal s : ℤ) < 365 →
        suggest_date_range s e = some (s, e)) ∧
      (365 ≤ (toOrdinal e : ℤ) - (toOrdinal s : ℤ) → ¬(e.m = 2 ∧ e.d = 29) →
        (¬ Date.lexLT (Date.mk (e.y - 1) e.m e.d) s →
          suggest_date_range s e = some (Date.mk (e.y - 1) e.m e.d, e)) ∧
        (Date.lexLT (Date.mk (e.y - 1) e.m e.d) s → ¬(s.m = 2 ∧ s.d = 29) →
          suggest_date_range s e =
            some (s, if Date.lexLT e (Date.mk (s.y + 1) s.m s.d) then e
                     else Date.mk (s.y + 1) s.m s.d))) ∧
      (suggest_date_range (Date.mk 2022 1 1) (Date.mk 2023 2 5) =
          some (Date.mk 2022 2 5, Date.mk 2023 2 5) ∧
        toOrdinal (Date.mk 2023 2 5) - toOrdinal (Date.mk 2022 1 1) = 400 ∧
        toOrdinal (Date.mk 2022 2 5) - toOrdinal (Date.mk 2022 1 1) = 35) ∧
      (suggest_date_range (Date.mk 2022 1 1) (Date.mk 2022 7 20) =
          some (Date.mk 2022 1 1, Date.mk 2022 7 20) ∧
        toOrdinal (Date.mk 2022 7 20) - toOrdinal (Date.mk 2022 1 1) = 200) := by
  intro s e hs he
  refine ⟨?_, ?_, by decide, by decide⟩
  · intro h
    simp only [suggest_date_range]
    rw [if_neg (not_le.mpr h)]
  · intro hspan h29
    have hspanN : toOrdinal s + 365 ≤ toOrdinal e := by omega
    have hey2 := year_ge_two_of_span s e hs he hspanN
    have he' := he
    obtain ⟨he1, he2, _⟩ := he'
    have hanchor : (Date.mk (e.y - 1) e.m e.d).valid :=
      shift_year_valid e he h29 (e.y - 1) (by omega) (by omega)
    have hmk : mkDate (e.y - 1) e.m e.d = some (Date.mk (e.y - 1) e.m e.d) := by
      unfold mkDate
      rw [if_pos hanchor]
    constructor
    · intro hnlt
      simp [suggest_date_range, hspan, hmk, hnlt]
    · intro hlt h29s
      have hsy9998 := year_le_9998_of_span s e hs he hspanN
      have hs' := hs
      obtain ⟨hs1, hs2, _⟩ := hs'
      have hbval : (Date.mk (s.y + 1) s.m s.d).valid :=
        shift_year_valid s hs h29s (s.y + 1) (by omega) (by omega)
      have hmkb : mkDate (s.y + 1) s.m s.d = some (Date.mk (s.y + 1) s.m s.d) := by
        unfold mkDate
        rw [if_pos hbval]
      by_cases hend : Date.lexLT e (Date.mk (s.y + 1) s.m s.d) <;>
        simp [suggest_date_range, hspan, hmk, hlt, hmkb, hend]

theorem suggest_range_rule_witness :
    suggest_date_range (Date.mk 2022 1 1) (Date.mk 2023 2 5) =
      some (Date.mk 2022 2 5, Date.mk 2023 2 5) :=
  ((suggest_range_rule (Date.mk 2022 1 1) (Date.mk 2023 2 5)
      (by decide) (by decide)).2.1 (by decide) (by decide)).1 (by decide)
